import Mathlib

/-!
Verification of the scoring/persistence logic of the Fushing health-dashboard
app (`src/app.py`).  Python numbers are embedded as rationals (`ℚ`), Python's
`int(...)` truncation toward zero as `pyInt`, the SQLite `health_logs` table as
a list of rows, and the CRUD statements as list operations.
-/

/-- Python's `int(x)` on a number: truncation toward zero. -/
def pyInt (q : ℚ) : ℤ := if q < 0 then ⌈q⌉ else ⌊q⌋

/-- The running `base_score` of `calculate_readiness` (src/app.py lines 36-49)
before the final `max(0, min(100, int(...)))`. -/
def readinessBase (vf hr bp_sys body_age actual_age : ℚ) (social_mode : Bool)
    (micro_workouts water_intake water_goal : ℚ) : ℚ :=
  let s1 : ℚ := 100
  let s2 := if vf > 10 then s1 - (vf - 10) * 1.5 else s1
  let s3 := if hr > 65 then s2 - (hr - 65) * 2 else s2
  let s4 := if bp_sys > 130 then s3 - (bp_sys - 130) * 1 else s3
  let age_gap := body_age - actual_age
  let s5 := if age_gap > 0 then s4 - age_gap * 1 else s4
  let s6 := if social_mode then s5 - 20 else s5
  let s7 := s6 + micro_workouts * 3
  let s8 := if water_intake ≥ water_goal then s7 + 5 else s7
  s8

/-- `calculate_readiness` (src/app.py lines 35-51): the base score followed by
`return max(0, min(100, int(base_score)))` — truncate, then clamp. -/
def calculate_readiness (vf hr bp_sys body_age actual_age : ℚ) (social_mode : Bool)
    (micro_workouts water_intake water_goal : ℚ) : ℤ :=
  max 0 (min 100 (pyInt (readinessBase vf hr bp_sys body_age actual_age social_mode
    micro_workouts water_intake water_goal)))

/-- `check_red_flag` (src/app.py lines 29-33). -/
def check_red_flag (bp_sys hr : ℚ) : Bool :=
  if bp_sys ≥ 160 ∨ hr ≥ 100 then true else false

/-- Reference definition following the spec's words for `readinessScore`:
starts at 100; subtracts `(visceralFat-10)*1.5` if visceralFat>10; subtracts
`(heartRate-65)*2` if heartRate>65; subtracts `(systolicBP-130)*1` if
systolicBP>130; subtracts `(bodyAge-actualAge)*1` if positive; subtracts 20 if
socialMode; adds `microWorkouts*3`; adds 5 if waterIntake ≥ waterGoal; clamps
to [0,100], then truncates to integer. -/
def readinessScoreSpec (visceralFat heartRate systolicBP bodyAge actualAge : ℚ)
    (socialMode : Bool) (microWorkouts waterIntake waterGoal : ℚ) : ℤ :=
  let b0 : ℚ := 100
  let b1 := if visceralFat > 10 then b0 - (visceralFat - 10) * 1.5 else b0
  let b2 := if heartRate > 65 then b1 - (heartRate - 65) * 2 else b1
  let b3 := if systolicBP > 130 then b2 - (systolicBP - 130) * 1 else b2
  let b4 := if bodyAge - actualAge > 0 then b3 - (bodyAge - actualAge) * 1 else b3
  let b5 := if socialMode then b4 - 20 else b4
  let b6 := b5 + microWorkouts * 3
  let b7 := if waterIntake ≥ waterGoal then b6 + 5 else b6
  pyInt (max 0 (min 100 b7))

/-- Modelled from the spec: the v9.5 `predictiveRisk` /
`calculate_predictive_risk` function is described in the spec but absent from
the source tree (only `src/app.py` is present).  Per the spec: deficit =
`100 - currentScore`; multiplier = `1 + max(0, (heartRate-65)*0.05)`;
loadFactor = `1 + workLoadHours*0.1`; result =
`clamp(deficit*multiplier*loadFactor, 0, 100)`, returned as an `int`. -/
def calculate_predictive_risk (currentScore heartRate workLoadHours : ℚ) : ℤ :=
  let deficit := 100 - currentScore
  let multiplier := 1 + max 0 ((heartRate - 65) * 0.05)
  let loadFactor := 1 + workLoadHours * 0.1
  pyInt (max 0 (min 100 (deficit * multiplier * loadFactor)))

/-- A row of the `health_logs` SQLite table (src/app.py lines 15-24);
`date` is the primary key. -/
structure LogRow where
  date : String
  actual_age : ℚ
  body_age : ℚ
  visceral_fat : ℚ
  muscle_mass : ℚ
  bmi : ℚ
  resting_hr : ℚ
  blood_pressure : String
  readiness_score : ℤ
  social_mode_active : Bool
  micro_workouts_done : ℚ
  water_intake_cc : ℚ
deriving DecidableEq

/-- SQLite `INSERT OR REPLACE` on a table whose primary key is `date`
(src/app.py lines 243-253): any existing row with the same date is replaced
by the new row. -/
def insertOrReplace (db : List LogRow) (row : LogRow) : List LogRow :=
  row :: db.filter (fun r => r.date != row.date)

/-- A sequence of save operations applied in order. -/
def applySaves (db : List LogRow) (saves : List LogRow) : List LogRow :=
  saves.foldl insertOrReplace db

/-- `SELECT ... FROM health_logs WHERE date=?` (src/app.py line 284). -/
def lookupLog (db : List LogRow) (d : String) : Option LogRow :=
  db.find? (fun r => r.date == d)

/-- `DELETE FROM health_logs WHERE date=?` (src/app.py line 342). -/
def deleteLog (db : List LogRow) (d : String) : List LogRow :=
  db.filter (fun r => r.date != d)

/-- The string `f"{e_bp_sys}/{e_bp_dia}"` stored in the `blood_pressure`
column by the edit path (src/app.py line 317). -/
def bpFormat (a b : ℚ) : String := toString a ++ "/" ++ toString b

/-- The row written by the edit tab's update button (src/app.py lines
316-330): the readiness score column is recomputed from the edited fields
with `e_goal = 3000 if e_social else 2000`. -/
def updatedRow (d : String)
    (e_actual_age e_body_age e_vf e_muscle e_bmi e_hr e_bp_sys e_bp_dia : ℚ)
    (e_social : Bool) (e_workouts e_water : ℚ) : LogRow :=
  { date := d
    actual_age := e_actual_age
    body_age := e_body_age
    visceral_fat := e_vf
    muscle_mass := e_muscle
    bmi := e_bmi
    resting_hr := e_hr
    blood_pressure := bpFormat e_bp_sys e_bp_dia
    readiness_score := calculate_readiness e_vf e_hr e_bp_sys e_body_age
      e_actual_age e_social e_workouts e_water (if e_social then 3000 else 2000)
    social_mode_active := e_social
    micro_workouts_done := e_workouts
    water_intake_cc := e_water }

/-- `UPDATE health_logs SET ... WHERE date=?` (src/app.py lines 325-330):
every row whose date matches is replaced by the new row, the rest are kept. -/
def updateLog (db : List LogRow) (d : String) (row : LogRow) : List LogRow :=
  db.map (fun r => if r.date == d then row else r)

/-- A sample persisted row, used to instantiate the CRUD theorems. -/
def sampleRow1 : LogRow :=
  { date := "2025-01-01"
    actual_age := 54
    body_age := 69
    visceral_fat := 25
    muscle_mass := 26.7
    bmi := 33.8
    resting_hr := 63
    blood_pressure := "119/79"
    readiness_score := 62
    social_mode_active := false
    micro_workouts_done := 0
    water_intake_cc := 0 }

/-- A second sample row with a different date. -/
def sampleRow2 : LogRow :=
  { sampleRow1 with date := "2025-01-02", readiness_score := 70 }

/-- A sample table with one row per date. -/
def sampleDb : List LogRow := [sampleRow1, sampleRow2]

/-- The row written by the update button on sample edited inputs. -/
def sampleUpdated : LogRow :=
  updatedRow "2025-01-01" 54 69 25 26.7 33.8 63 119 79 false 0 0

/-- Python's `str.split('/')`: splits a character list at every `'/'`,
keeping empty fragments (so `""` gives one empty fragment). -/
def splitSlash : List Char → List (List Char)
  | [] => [[]]
  | c :: rest =>
    if c = '/' then [] :: splitSlash rest
    else
      match splitSlash rest with
      | [] => [[c]]
      | h :: t => (c :: h) :: t

/-- Surrounding-whitespace strip, as Python's `int(...)` performs on string
input. -/
def stripChars (cs : List Char) : List Char :=
  ((cs.dropWhile Char.isWhitespace).reverse.dropWhile Char.isWhitespace).reverse

/-- Decimal value of a run of digit characters. -/
def digitsVal (cs : List Char) : ℤ :=
  cs.foldl (fun n c => n * 10 + ((c.toNat : ℤ) - 48)) 0

/-- Modelled after Python's `int(...)` applied to a string: surrounding
whitespace is stripped, an optional single sign is accepted, and the rest must
be a nonempty run of decimal digits, else a `ValueError` (here: `none`).
(Digit-group underscores, which Python also accepts, are not modelled.) -/
def pyIntOfChars (cs : List Char) : Option ℤ :=
  let t := stripChars cs
  let sd : Bool × List Char :=
    match t with
    | '-' :: rest => (true, rest)
    | '+' :: rest => (false, rest)
    | r => (false, r)
  if sd.2.isEmpty then none
  else if sd.2.all Char.isDigit then
    some (if sd.1 then -digitsVal sd.2 else digitsVal sd.2)
  else none

/-- `bp_sys, bp_dia = map(int, bp.split('/'))` (src/app.py line 290): the
stored string must split into exactly two fragments, each parsing as an
integer; any other shape raises and yields `none` here. -/
def parseBPpair (s : String) : Option (ℤ × ℤ) :=
  match splitSlash s.data with
  | [a, b] =>
    match pyIntOfChars a, pyIntOfChars b with
    | some x, some y => some (x, y)
    | _, _ => none
  | _ => none

/-- The edit tab's try/except around the blood-pressure parse (src/app.py
lines 289-292): on failure it falls back to `120, 80`. -/
def bpOrDefault (s : String) : ℤ × ℤ :=
  match parseBPpair s with
  | some p => p
  | none => (120, 80)

lemma pyInt_of_nonneg {q : ℚ} (h : 0 ≤ q) : pyInt q = ⌊q⌋ :=
  if_neg (not_lt.mpr h)

lemma pyInt_of_neg {q : ℚ} (h : q < 0) : pyInt q = ⌈q⌉ :=
  if_pos h

lemma pyInt_zero : pyInt 0 = 0 := by
  rw [pyInt_of_nonneg le_rfl]; exact Int.floor_zero

lemma pyInt_hundred : pyInt 100 = 100 := by
  rw [pyInt_of_nonneg (by norm_num)]; norm_num

/-- Truncation toward zero is monotone. -/
lemma pyInt_mono {a b : ℚ} (h : a ≤ b) : pyInt a ≤ pyInt b := by
  rcases lt_or_le a 0 with ha | ha
  · rcases lt_or_le b 0 with hb | hb
    · rw [pyInt_of_neg ha, pyInt_of_neg hb]
      exact Int.ceil_le_ceil h
    · rw [pyInt_of_neg ha, pyInt_of_nonneg hb]
      exact le_trans (Int.ceil_le.mpr (by exact_mod_cast ha.le))
        (Int.floor_nonneg.mpr hb)
  · rw [pyInt_of_nonneg ha, pyInt_of_nonneg (ha.trans h)]
    exact Int.floor_le_floor h

/-- Truncating toward zero commutes with clamping to `[0, 100]`:
`max(0, min(100, int(q)))` equals `int(max(0, min(100, q)))`. -/
lemma clamp_pyInt_comm (q : ℚ) :
    max 0 (min 100 (pyInt q)) = pyInt (max 0 (min 100 q)) := by
  rcases lt_or_le q 0 with hq | hq
  · rw [pyInt_of_neg hq, min_eq_right (hq.le.trans (by norm_num)),
      max_eq_left hq.le, pyInt_zero]
    have h2 : ⌈q⌉ ≤ 0 := Int.ceil_le.mpr (by exact_mod_cast hq.le)
    rw [min_eq_right (h2.trans (by norm_num))]
    exact max_eq_left h2
  · rcases le_or_lt q 100 with hq' | hq'
    · rw [pyInt_of_nonneg hq, min_eq_right hq', max_eq_right hq,
        pyInt_of_nonneg hq]
      have hf0 : (0 : ℤ) ≤ ⌊q⌋ := Int.floor_nonneg.mpr hq
      have hf100 : ⌊q⌋ ≤ 100 := by
        have h := Int.floor_le_floor (α := ℚ) hq'
        simpa using h
      rw [min_eq_right hf100, max_eq_right hf0]
    · rw [pyInt_of_nonneg hq, min_eq_left hq'.le,
        max_eq_right (by norm_num : (0:ℚ) ≤ 100), pyInt_hundred]
      have hf : (100 : ℤ) ≤ ⌊q⌋ := by
        rw [Int.le_floor]; exact_mod_cast hq'.le
      rw [min_eq_left hf]
      exact max_eq_right (by norm_num)

/-- C1: `calculate_readiness` (which truncates with `int(...)` and then clamps
with `max(0, min(100, ...))`) returns, on every input tuple, exactly the value
of the spec's reference definition `readinessScoreSpec`, which applies the same
penalty/bonus pipeline, clamps to `[0,100]` first, and then truncates. -/
theorem calculate_readiness_eq_spec (vf hr bp_sys body_age actual_age : ℚ)
    (social_mode : Bool) (micro_workouts water_intake water_goal : ℚ) :
    calculate_readiness vf hr bp_sys body_age actual_age social_mode
      micro_workouts water_intake water_goal =
    readinessScoreSpec vf hr bp_sys body_age actual_age social_mode
      micro_workouts water_intake water_goal := by
  rw [calculate_readiness, clamp_pyInt_comm]
  rfl

/-- C2: for all inputs, the value returned by `calculate_readiness` lies in the
closed interval `[0, 100]`. -/
theorem calculate_readiness_mem_Icc (vf hr bp_sys body_age actual_age : ℚ)
    (social_mode : Bool) (micro_workouts water_intake water_goal : ℚ) :
    0 ≤ calculate_readiness vf hr bp_sys body_age actual_age social_mode
      micro_workouts water_intake water_goal ∧
    calculate_readiness vf hr bp_sys body_age actual_age social_mode
      micro_workouts water_intake water_goal ≤ 100 :=
  ⟨le_max_left _ _, max_le (by norm_num) (min_le_left _ _)⟩

/-- C3: `check_red_flag bp_sys hr` is `true` iff `bp_sys ≥ 160` or `hr ≥ 100`;
in particular it is `true` at `(160, 80)`, `false` at `(159, 99)` and `true`
at `(120, 100)`.  (Being a plain function of its two arguments, it has no side
effects.) -/
theorem check_red_flag_iff (bp_sys hr : ℚ) :
    (check_red_flag bp_sys hr = true ↔ 160 ≤ bp_sys ∨ 100 ≤ hr) ∧
    check_red_flag 160 80 = true ∧ check_red_flag 159 99 = false ∧
    check_red_flag 120 100 = true := by
  refine ⟨?_, by with_unfolding_all decide, by with_unfolding_all decide,
    by with_unfolding_all decide⟩
  unfold check_red_flag
  split <;> simp_all

/-- C4 counterexample: on the input `vf=25, hr=63, bp=119, bodyAge=69,
actualAge=54, social=False, workouts=0, water=0, goal=2000` the code does NOT
return 69 (the base score is `100 - 22.5 - 15 = 62.5`, truncated to 62). -/
theorem calculate_readiness_example_ne_69 :
    calculate_readiness 25 63 119 69 54 false 0 0 2000 ≠ 69 := by
  with_unfolding_all decide

/-- C4 amended: on that same input `calculate_readiness` returns 62. -/
theorem calculate_readiness_example_eq_62 :
    calculate_readiness 25 63 119 69 54 false 0 0 2000 = 62 := by
  with_unfolding_all decide

/-- One extra micro-workout adds exactly 3 to the pre-truncation base score. -/
lemma readinessBase_succ_workout (vf hr bp_sys body_age actual_age : ℚ)
    (social_mode : Bool) (micro_workouts water_intake water_goal : ℚ) :
    readinessBase vf hr bp_sys body_age actual_age social_mode
      (micro_workouts + 1) water_intake water_goal =
    readinessBase vf hr bp_sys body_age actual_age social_mode
      micro_workouts water_intake water_goal + 3 := by
  simp only [readinessBase]
  split_ifs <;> ring

/-- C5 counterexample: with `vf = 100` (base score `-35`, clamped to 0),
going from 0 to 1 micro-workout does not change the returned score at all,
and neither result is clamped at 100.  So the claim "increasing
`microWorkouts` by 1 increases the score by exactly 3 unless the result is
clamped at 100" fails as stated. -/
theorem calculate_readiness_workout_cex :
    calculate_readiness 100 60 120 50 54 false 1 0 2000 ≠ 100 ∧
    calculate_readiness 100 60 120 50 54 false 1 0 2000 ≠
      calculate_readiness 100 60 120 50 54 false 0 0 2000 + 3 := by
  with_unfolding_all decide

/-- C5 amended: for every fixed setting of the other eight arguments,
increasing `microWorkouts` by 1 increases the score by exactly 3, provided
the pre-clamp base score is nonnegative (so the lower clamp and the
toward-zero truncation do not interfere) and the incremented score is not
clamped at 100. -/
theorem calculate_readiness_workout_delta (vf hr bp_sys body_age actual_age : ℚ)
    (social_mode : Bool) (micro_workouts water_intake water_goal : ℚ)
    (h0 : 0 ≤ readinessBase vf hr bp_sys body_age actual_age social_mode
      micro_workouts water_intake water_goal)
    (h100 : pyInt (readinessBase vf hr bp_sys body_age actual_age social_mode
      micro_workouts water_intake water_goal) + 3 ≤ 100) :
    calculate_readiness vf hr bp_sys body_age actual_age social_mode
      (micro_workouts + 1) water_intake water_goal =
    calculate_readiness vf hr bp_sys body_age actual_age social_mode
      micro_workouts water_intake water_goal + 3 := by
  have hsucc := readinessBase_succ_workout vf hr bp_sys body_age actual_age
    social_mode micro_workouts water_intake water_goal
  set b := readinessBase vf hr bp_sys body_age actual_age social_mode
    micro_workouts water_intake water_goal with hb
  have htr : pyInt (b + 3) = pyInt b + 3 := by
    rw [pyInt_of_nonneg h0, pyInt_of_nonneg (by linarith)]
    have h3 : (3 : ℚ) = ((3 : ℤ) : ℚ) := by norm_num
    rw [h3, Int.floor_add_int]
  have hb0 : 0 ≤ pyInt b := by
    rw [pyInt_of_nonneg h0]; exact Int.floor_nonneg.mpr h0
  unfold calculate_readiness
  rw [hsucc, htr, ← hb]
  omega

/-- C5 witness: at the concrete input of C4 the hypotheses of
`calculate_readiness_workout_delta` hold and the score rises from 62 to 65. -/
theorem calculate_readiness_workout_delta_witness :
    calculate_readiness 25 63 119 69 54 false (0 + 1) 0 2000 =
      calculate_readiness 25 63 119 69 54 false 0 0 2000 + 3 :=
  calculate_readiness_workout_delta 25 63 119 69 54 false 0 0 2000
    (by with_unfolding_all decide) (by with_unfolding_all decide)

/-- Clamping to `[0, 100]` is monotone. -/
lemma clamp_mono {a b : ℚ} (h : a ≤ b) :
    max 0 (min 100 a) ≤ max 0 (min 100 b) :=
  max_le_max le_rfl (min_le_min le_rfl h)

/-- A nonpositive value clamps to 0. -/
lemma clamp_of_nonpos {a : ℚ} (h : a ≤ 0) : max 0 (min 100 a) = 0 :=
  max_eq_left ((min_le_right _ _).trans h)

/-- C8 counterexample: with `currentScore = 105` (negative deficit) the risk
DROPS from 5 to 0 as `workLoadHours` increases from `-20` to `0`, so
`calculate_predictive_risk` is not monotone in `workLoadHours` for every
fixed `currentScore`. -/
theorem calculate_predictive_risk_wl_cex :
    ¬ calculate_predictive_risk 105 65 (-20) ≤ calculate_predictive_risk 105 65 0 := by
  with_unfolding_all decide

/-- C8 amended: `calculate_predictive_risk` is monotonically non-decreasing in
`heartRate` for every fixed `currentScore` and `workLoadHours`, and
monotonically non-decreasing in `workLoadHours` for every fixed `currentScore`
and `heartRate` as long as the work-load hours are nonnegative. -/
theorem calculate_predictive_risk_mono (currentScore : ℚ) :
    (∀ wl h₁ h₂ : ℚ, h₁ ≤ h₂ →
      calculate_predictive_risk currentScore h₁ wl ≤
        calculate_predictive_risk currentScore h₂ wl) ∧
    (∀ hr w₁ w₂ : ℚ, 0 ≤ w₁ → w₁ ≤ w₂ →
      calculate_predictive_risk currentScore hr w₁ ≤
        calculate_predictive_risk currentScore hr w₂) := by
  constructor
  · intro wl h₁ h₂ h
    simp only [calculate_predictive_risk]
    have hm : 1 + max 0 ((h₁ - 65) * 0.05) ≤ 1 + max 0 ((h₂ - 65) * 0.05) := by
      have : (h₁ - 65) * 0.05 ≤ (h₂ - 65) * 0.05 :=
        mul_le_mul_of_nonneg_right (by linarith) (by norm_num)
      exact add_le_add_left (max_le_max le_rfl this) 1
    have hm1 : (1 : ℚ) ≤ 1 + max 0 ((h₁ - 65) * 0.05) :=
      le_add_of_nonneg_right (le_max_left 0 _)
    have hm2 : (1 : ℚ) ≤ 1 + max 0 ((h₂ - 65) * 0.05) :=
      le_add_of_nonneg_right (le_max_left 0 _)
    rcases le_or_lt 0 ((100 - currentScore) * (1 + wl * 0.1)) with hDL | hDL
    · apply pyInt_mono (clamp_mono ?_)
      have e₁ : (100 - currentScore) * (1 + max 0 ((h₁ - 65) * 0.05)) * (1 + wl * 0.1)
          = (100 - currentScore) * (1 + wl * 0.1) * (1 + max 0 ((h₁ - 65) * 0.05)) := by
        ring
      have e₂ : (100 - currentScore) * (1 + max 0 ((h₂ - 65) * 0.05)) * (1 + wl * 0.1)
          = (100 - currentScore) * (1 + wl * 0.1) * (1 + max 0 ((h₂ - 65) * 0.05)) := by
        ring
      rw [e₁, e₂]
      exact mul_le_mul_of_nonneg_left hm hDL
    · have hp₁ : (100 - currentScore) * (1 + max 0 ((h₁ - 65) * 0.05)) * (1 + wl * 0.1) ≤ 0 := by
        nlinarith
      have hp₂ : (100 - currentScore) * (1 + max 0 ((h₂ - 65) * 0.05)) * (1 + wl * 0.1) ≤ 0 := by
        nlinarith
      rw [clamp_of_nonpos hp₁, clamp_of_nonpos hp₂]
  · intro hr w₁ w₂ hw0 hw
    simp only [calculate_predictive_risk]
    have hL : 1 + w₁ * 0.1 ≤ 1 + w₂ * 0.1 := by
      have : w₁ * 0.1 ≤ w₂ * 0.1 := mul_le_mul_of_nonneg_right hw (by norm_num)
      linarith
    have hL1 : (1 : ℚ) ≤ 1 + w₁ * 0.1 := by nlinarith
    have hL2 : (1 : ℚ) ≤ 1 + w₂ * 0.1 := by nlinarith
    have hm1 : (1 : ℚ) ≤ 1 + max 0 ((hr - 65) * 0.05) :=
      le_add_of_nonneg_right (le_max_left 0 _)
    rcases le_or_lt 0 ((100 - currentScore) * (1 + max 0 ((hr - 65) * 0.05))) with hDm | hDm
    · exact pyInt_mono (clamp_mono (mul_le_mul_of_nonneg_left hL hDm))
    · have hp₁ : (100 - currentScore) * (1 + max 0 ((hr - 65) * 0.05)) * (1 + w₁ * 0.1) ≤ 0 := by
        nlinarith
      have hp₂ : (100 - currentScore) * (1 + max 0 ((hr - 65) * 0.05)) * (1 + w₂ * 0.1) ≤ 0 := by
        nlinarith
      rw [clamp_of_nonpos hp₁, clamp_of_nonpos hp₂]

/-- C8 witness: concrete instances of both monotonicity directions. -/
theorem calculate_predictive_risk_mono_witness :
    calculate_predictive_risk 50 60 10 ≤ calculate_predictive_risk 50 70 10 ∧
    calculate_predictive_risk 50 70 1 ≤ calculate_predictive_risk 50 70 2 :=
  ⟨(calculate_predictive_risk_mono 50).1 10 60 70 (by norm_num),
   (calculate_predictive_risk_mono 50).2 70 1 2 (by norm_num) (by norm_num)⟩

lemma find?_filter_of_imp {α : Type} (l : List α) (p q : α → Bool)
    (h : ∀ x, p x = true → q x = true) :
    (l.filter q).find? p = l.find? p := by
  induction l with
  | nil => rfl
  | cons a t ih =>
    rw [List.filter_cons]
    by_cases hq : q a = true
    · rw [if_pos hq]
      by_cases hp : p a = true
      · rw [List.find?_cons_of_pos _ hp, List.find?_cons_of_pos _ hp]
      · rw [List.find?_cons_of_neg _ hp, List.find?_cons_of_neg _ hp, ih]
    · have hp : ¬ p a = true := fun hpa => hq (h a hpa)
      rw [if_neg hq, ih, List.find?_cons_of_neg _ hp]

lemma countP_filter_of_imp {α : Type} (l : List α) (p q : α → Bool)
    (h : ∀ x, p x = true → q x = true) :
    (l.filter q).countP p = l.countP p := by
  induction l with
  | nil => rfl
  | cons a t ih =>
    rw [List.filter_cons]
    by_cases hq : q a = true
    · rw [if_pos hq, List.countP_cons, List.countP_cons, ih]
    · have hp : ¬ p a = true := fun hpa => hq (h a hpa)
      rw [if_neg hq, ih, List.countP_cons, if_neg hp]
      omega

/-- Looking up a date after an upsert: the new row if the date matches,
otherwise the old lookup. -/
lemma lookupLog_insertOrReplace (db : List LogRow) (row : LogRow) (d : String) :
    lookupLog (insertOrReplace db row) d =
      if row.date == d then some row else lookupLog db d := by
  unfold lookupLog insertOrReplace
  by_cases h : (row.date == d) = true
  · rw [if_pos h]
    exact List.find?_cons_of_pos _ h
  · rw [if_neg h]
    have h1 : List.find? (fun r => r.date == d)
        (row :: db.filter (fun r => r.date != row.date)) =
        List.find? (fun r => r.date == d)
          (db.filter (fun r => r.date != row.date)) :=
      List.find?_cons_of_neg _ h
    rw [h1]
    apply find?_filter_of_imp
    intro x hx
    have hxd : x.date = d := by simpa using hx
    have hrd : ¬ row.date = d := by simpa using h
    simp [hxd]
    exact fun he => hrd he.symm

/-- Row count for a date after an upsert: exactly one row for the saved date,
unchanged for the rest. -/
lemma countP_insertOrReplace (db : List LogRow) (row : LogRow) (d : String) :
    (insertOrReplace db row).countP (fun r => r.date == d) =
      if row.date == d then 1 else db.countP (fun r => r.date == d) := by
  unfold insertOrReplace
  rw [List.countP_cons]
  by_cases h : (row.date == d) = true
  · rw [if_pos h, if_pos h]
    have hz : (db.filter (fun r => r.date != row.date)).countP
        (fun r => r.date == d) = 0 := by
      rw [List.countP_eq_zero]
      intro a ha
      rw [List.mem_filter] at ha
      intro hp
      have had : a.date = d := by simpa using hp
      have hne : ¬ a.date = row.date := by simpa using ha.2
      exact hne (by rw [had, eq_of_beq h])
    rw [hz]
  · rw [if_neg h, if_neg h]
    have himp : ∀ x : LogRow, (x.date == d) = true →
        (x.date != row.date) = true := by
      intro x hx
      have hxd : x.date = d := by simpa using hx
      have hrd : ¬ row.date = d := by simpa using h
      simp [hxd]
      exact fun he => hrd he.symm
    rw [countP_filter_of_imp db (fun r => r.date == d)
      (fun r => r.date != row.date) himp]
    omega

lemma lookupLog_applySaves (saves : List LogRow) (db : List LogRow) (d : String) :
    lookupLog (applySaves db saves) d =
      (saves.reverse.find? (fun r => r.date == d)).or (lookupLog db d) := by
  induction saves generalizing db with
  | nil => simp [applySaves]
  | cons s t ih =>
    show lookupLog (applySaves (insertOrReplace db s) t) d = _
    rw [ih, lookupLog_insertOrReplace, List.reverse_cons, List.find?_append,
      Option.or_assoc]
    congr 1
    by_cases h : (s.date == d) = true
    · rw [if_pos h]
      have h1 : List.find? (fun r => r.date == d) [s] = some s :=
        List.find?_cons_of_pos _ h
      rw [h1]
      rfl
    · rw [if_neg h]
      have h1 : List.find? (fun r => r.date == d) [s] =
          List.find? (fun r => r.date == d) [] :=
        List.find?_cons_of_neg _ h
      rw [h1]
      rfl

lemma countP_applySaves_le_one (saves : List LogRow) (db : List LogRow)
    (d : String) (hdb : db.countP (fun r => r.date == d) ≤ 1) :
    (applySaves db saves).countP (fun r => r.date == d) ≤ 1 := by
  induction saves generalizing db with
  | nil => exact hdb
  | cons s t ih =>
    show (applySaves (insertOrReplace db s) t).countP _ ≤ 1
    apply ih
    rw [countP_insertOrReplace]
    split
    · exact le_rfl
    · exact hdb

/-- C6: starting from an empty table, after any sequence of saves there is at
most one persisted row per date, and the row looked up for a date is exactly
the payload of the most recent save for that date (none if never saved). -/
theorem health_logs_upsert (saves : List LogRow) (d : String) :
    (applySaves [] saves).countP (fun r => r.date == d) ≤ 1 ∧
    lookupLog (applySaves [] saves) d =
      saves.reverse.find? (fun r => r.date == d) := by
  constructor
  · exact countP_applySaves_le_one saves [] d (by simp)
  · rw [lookupLog_applySaves]
    simp [lookupLog]

/-- C10: the delete operation removes exactly the rows whose date equals the
selected date: afterwards no row with that date remains, the rows for every
other date are exactly as before, and no row was added. -/
theorem deleteLog_spec (db : List LogRow) (d : String) :
    (∀ r ∈ deleteLog db d, r.date ≠ d) ∧
    (∀ d' : String, d' ≠ d →
      (deleteLog db d).filter (fun r => r.date == d') =
        db.filter (fun r => r.date == d')) ∧
    (∀ r ∈ deleteLog db d, r ∈ db) := by
  refine ⟨?_, ?_, ?_⟩
  · intro r hr
    rw [deleteLog, List.mem_filter] at hr
    simpa using hr.2
  · intro d' hd'
    rw [deleteLog, List.filter_filter]
    apply List.filter_congr
    intro a _
    by_cases h : (a.date == d') = true
    · have had : a.date = d' := eq_of_beq h
      have hnd : (a.date != d) = true := by
        simp [had]
        exact hd'
      rw [h, hnd]
      rfl
    · have h' : (a.date == d') = false := by
        cases hc : (a.date == d')
        · rfl
        · exact absurd hc h
      rw [h', Bool.false_and]
  · intro r hr
    exact (List.mem_filter.mp hr).1

/-- C9: after the edit tab's update, every stored row for the selected date
carries a readiness score equal to `calculate_readiness` applied to that same
row's stored fields (with the edited systolic pressure, which the row only
keeps as a formatted string) and with water goal 3000 when the row's social
flag is set and 2000 otherwise: the score is never stale on this path. -/
theorem updateLog_score_consistent (db : List LogRow) (d : String)
    (e_actual_age e_body_age e_vf e_muscle e_bmi e_hr e_bp_sys e_bp_dia : ℚ)
    (e_social : Bool) (e_workouts e_water : ℚ) :
    ∀ r ∈ updateLog db d (updatedRow d e_actual_age e_body_age e_vf e_muscle
        e_bmi e_hr e_bp_sys e_bp_dia e_social e_workouts e_water),
      r.date = d →
      r.readiness_score = calculate_readiness r.visceral_fat r.resting_hr
        e_bp_sys r.body_age r.actual_age r.social_mode_active
        r.micro_workouts_done r.water_intake_cc
        (if r.social_mode_active then 3000 else 2000) := by
  intro r hr hrd
  rw [updateLog, List.mem_map] at hr
  obtain ⟨a, -, ha⟩ := hr
  by_cases h : (a.date == d) = true
  · rw [if_pos h] at ha
    subst ha
    rfl
  · rw [if_neg h] at ha
    subst ha
    exact absurd hrd (by simpa using h)

/-- C10 witness: deleting the 2025-01-02 row of the sample table leaves the
2025-01-01 rows untouched, and the surviving row's date differs from the
deleted one. -/
theorem deleteLog_spec_witness :
    sampleRow1.date ≠ "2025-01-02" ∧
    (deleteLog sampleDb "2025-01-02").filter (fun r => r.date == "2025-01-01") =
      sampleDb.filter (fun r => r.date == "2025-01-01") :=
  ⟨(deleteLog_spec sampleDb "2025-01-02").1 sampleRow1
      (by with_unfolding_all decide),
   (deleteLog_spec sampleDb "2025-01-02").2.1 "2025-01-01" (by decide)⟩

/-- C9 witness: the concrete updated row stores a readiness score equal to
`calculate_readiness` on its own stored fields. -/
theorem updateLog_score_consistent_witness :
    sampleUpdated.readiness_score = calculate_readiness
      sampleUpdated.visceral_fat sampleUpdated.resting_hr 119
      sampleUpdated.body_age sampleUpdated.actual_age
      sampleUpdated.social_mode_active sampleUpdated.micro_workouts_done
      sampleUpdated.water_intake_cc
      (if sampleUpdated.social_mode_active then 3000 else 2000) :=
  updateLog_score_consistent [sampleRow1] "2025-01-01"
    54 69 25 26.7 33.8 63 119 79 false 0 0 sampleUpdated
    (by simp [updateLog, sampleRow1, sampleUpdated]) rfl

/-- C7: when the stored blood-pressure string cannot be parsed as two
integers separated by `'/'`, the edit path falls back to the default pair
`(120, 80)`; when it can, the parsed pair is used. -/
theorem bp_parse_fallback (s : String) :
    (parseBPpair s = none → bpOrDefault s = (120, 80)) ∧
    (∀ p : ℤ × ℤ, parseBPpair s = some p → bpOrDefault s = p) := by
  constructor
  · intro h
    unfold bpOrDefault
    rw [h]
  · intro p h
    unfold bpOrDefault
    rw [h]

/-- C7 witness: a malformed stored string falls back to `(120, 80)`, and the
well-formed string `"119/79"` parses to `(119, 79)`. -/
theorem bp_parse_fallback_witness :
    bpOrDefault "not numbers" = (120, 80) ∧
    bpOrDefault "119/79" = (119, 79) :=
  ⟨(bp_parse_fallback "not numbers").1 (by with_unfolding_all decide),
   (bp_parse_fallback "119/79").2 (119, 79) (by with_unfolding_all decide)⟩
